import Mathlib

/-!
Shallow embedding of the `jenkins_4fun` repository
(`python/jenkins_manager.py` and `jenkins/generate_casc.py`) and proofs
about its observable behaviour.  External collaborators (the Docker API,
subprocesses, the filesystem, the YAML parser) are modelled as value-level
oracles: every external call's outcome is a field of an environment
record, and the embedded functions are pure functions of that environment.
-/

set_option autoImplicit false

namespace Jenkins4Fun

/-! ### Python string containment (`needle in hay`) -/

/-- Whether the second character list starts with the first. -/
def matchesAt : List Char → List Char → Bool
  | [], _ => true
  | _ :: _, [] => false
  | a :: as, b :: bs => a == b && matchesAt as bs

/-- Whether `needle` occurs as a contiguous sublist of `hay`;
this is Python's `needle in hay` on strings. -/
def hasSub (needle : List Char) : List Char → Bool
  | [] => needle.isEmpty
  | b :: bs => matchesAt needle (b :: bs) || hasSub needle bs

/-- Python's `needle in hay` for strings. -/
def pyIn (needle hay : String) : Bool :=
  hasSub needle.data hay.data

/-- Python truthiness of an optional string: `None` and `""` are falsy. -/
def pyTruthy : Option String → Bool
  | none => false
  | some s => !s.data.isEmpty

/-! ### Service Topology Reader (`get_service_names`) -/

/-- Condition `'agent' in service` from the loop in `get_service_names`. -/
def agentMatch (service : String) : Bool :=
  pyIn "agent" service

/-- Condition `service == 'jenkins' or 'controller' in service` from the
loop in `get_service_names`. -/
def controllerMatch (service : String) : Bool :=
  service == "jenkins" || pyIn "controller" service

/-- The `for service in compose.get('services', {})` loop of
`get_service_names`: both candidate names start as `None` and each
matching key overwrites the candidate (no `break`). -/
def scanServices : List String → Option String → Option String →
    Option String × Option String
  | [], a, c => (a, c)
  | s :: rest, a, c =>
      scanServices rest
        (if agentMatch s then some s else a)
        (if controllerMatch s then some s else c)

/-- Embedding of `get_service_names`: the compose document is reduced to
its declared service-name list (mapping keys, declared order); `sys.exit(1)`
is `Except.error 1`. -/
def get_service_names (services : List String) : Except Nat (String × String) :=
  let ac := scanServices services none none
  if !pyTruthy ac.1 || !pyTruthy ac.2 then Except.error 1
  else Except.ok (ac.1.getD "", ac.2.getD "")

/-- Specification-side helper: the last element of the list satisfying the
predicate, if any. -/
def lastMatch (p : String → Bool) : List String → Option String
  | [] => none
  | s :: rest =>
      match lastMatch p rest with
      | some x => some x
      | none => if p s then some s else none

/-! ### Cleanup Executor (`cleanup`) -/

/-- Docker API calls issued by `cleanup`, in the order the source issues
them. -/
inductive DockerOp
  | stopContainer (name : String)
  | removeContainer (name : String)
  | removeImage (id : String)
  | removeVolume (name : String)
  | pruneBuilds
  | removeNetwork (name : String)
  deriving DecidableEq, Repr

/-- Abstract Docker runtime state together with a failure oracle: each
field records the resources the client enumerates and whether the
corresponding API call raises `docker.errors.APIError`. -/
structure DockerWorld where
  runningContainers : List String
  allContainers : List String
  images : List String
  volumes : List String
  networks : List String
  stopFails : String → Bool
  removeContainerFails : String → Bool
  removeImageFails : String → Bool
  removeVolumeFails : String → Bool
  pruneBuildsFails : Bool
  removeNetworkFails : String → Bool

/-- Outcome of one Docker API call: `Except.error ()` is a raised
`docker.errors.APIError`. -/
def apiCall (fails : Bool) : Except Unit Unit :=
  if fails then Except.error () else Except.ok ()

/-- The `try/except docker.errors.APIError` wrapper: a raised error is
converted into a logged warning instead of propagating. -/
def tryWarn (r : Except Unit Unit) (warning : String) : List String :=
  match r with
  | Except.ok _ => []
  | Except.error _ => [warning]

/-- One of the source's `for` loops over a resource category: every item
is attempted, each inside its own `try/except`. -/
def forEachTry (items : List String) (fails : String → Bool)
    (mkOp : String → DockerOp) (mkWarn : String → String) :
    List DockerOp × List String :=
  items.foldl
    (fun acc n => (acc.1 ++ [mkOp n], acc.2 ++ tryWarn (apiCall (fails n)) (mkWarn n)))
    ([], [])

/-- Network names `cleanup` never removes. -/
def reservedNetworks : List String := ["bridge", "host", "none"]

/-- Embedding of `cleanup`: stop running containers, remove all
containers, remove images, remove volumes, prune the build cache, and
remove non-reserved networks, every individual call wrapped in
`try/except docker.errors.APIError`.  The return type is a pure pair
(issued API calls, logged warnings): the function cannot raise. -/
def cleanup (w : DockerWorld) : List DockerOp × List String :=
  let stops := forEachTry w.runningContainers w.stopFails
    DockerOp.stopContainer (fun n => "Failed to stop container " ++ n)
  let removes := forEachTry w.allContainers w.removeContainerFails
    DockerOp.removeContainer (fun n => "Failed to remove container " ++ n)
  let imgs := forEachTry w.images w.removeImageFails
    DockerOp.removeImage (fun i => "Failed to remove image " ++ i)
  let vols := forEachTry w.volumes w.removeVolumeFails
    DockerOp.removeVolume (fun v => "Failed to remove volume " ++ v)
  let prune : List DockerOp × List String :=
    ([DockerOp.pruneBuilds], tryWarn (apiCall w.pruneBuildsFails) "Failed to prune build cache")
  let nets := forEachTry (w.networks.filter (fun n => !reservedNetworks.contains n))
    w.removeNetworkFails DockerOp.removeNetwork (fun n => "Failed to remove network " ++ n)
  (stops.1 ++ removes.1 ++ imgs.1 ++ vols.1 ++ prune.1 ++ nets.1,
   stops.2 ++ removes.2 ++ imgs.2 ++ vols.2 ++ prune.2 ++ nets.2)

/-! ### Agent Discoverer (`collect_agents_and_generate_casc`) -/

/-- Abstract view of a Docker container as the discoverer observes it:
`statusAt i` is the status seen after the `i`-th `reload()`, and
`networks` lists the `IPAddress` values of the attached networks in
iteration order (`none` when the key is absent). -/
structure Container where
  name : String
  statusAt : Nat → String
  networks : List (Option String)

/-- The `for _ in range(20): reload; if status == "running": break; sleep(2)`
loop, counting how many times the status is polled; `fuel` starts at 20
and `i` is the index of the next poll. -/
def pollCount (status : Nat → String) : Nat → Nat → Nat
  | 0, _ => 0
  | Nat.succ fuel, i =>
      1 + (if status i = "running" then 0 else pollCount status fuel (i + 1))

/-- Polls performed for one container. -/
def pollsFor (c : Container) : Nat :=
  pollCount c.statusAt 20 0

/-- Python truthiness of the value bound to `ip` in the network loop. -/
def optTruthy : Option String → Bool
  | none => false
  | some s => !s.data.isEmpty

/-- The `for net_data in networks.values(): ip = net_data.get('IPAddress');
if ip: break` loop: `ip` holds the last value read, and the loop stops at
the first truthy one. -/
def loopIp : Option String → List (Option String) → Option String
  | ip, [] => ip
  | _, n :: rest => if optTruthy n then n else loopIp n rest

/-- The value appended to `agent_ips`: `ip if ip else ''`. -/
def emittedIp (c : Container) : String :=
  let ip := loopIp none c.networks
  if optTruthy ip then ip.getD "" else ""

/-- Embedding of the collection phase of `collect_agents_and_generate_casc`:
containers whose name contains the agent service name, in enumeration
order, each contributing one name and one IP. -/
def collectAgents (svc : String) (cs : List Container) :
    List String × List String :=
  ((cs.filter (fun c => pyIn svc c.name)).map Container.name,
   (cs.filter (fun c => pyIn svc c.name)).map emittedIp)

/-- Specification-side reading of the network loop: the first non-empty
address among the attached networks. -/
def firstNonemptyIp : List (Option String) → Option String
  | [] => none
  | none :: rest => firstNonemptyIp rest
  | some s :: rest => if s.data.isEmpty then firstNonemptyIp rest else some s

/-! ### Template Renderer (`jenkins/generate_casc.py` module body) -/

/-- Observable outcome of one run of the renderer script: the agent
records it built, the filesystem after its single write (a map from path
to content), and the line it printed. -/
structure RenderOutcome where
  agents : List (String × String)
  fs : String → Option String
  printed : String

/-- Fixed output path of the renderer. -/
def cascOutputPath : String := "jenkins/casc.generated.yaml"

/-- Embedding of the `generate_casc.py` module body: `args` is `sys.argv[1:]`,
`render` is the Jinja2 template applied to the agent records (an external
collaborator, passed as an oracle), and `fs0` is the filesystem before the
run.  `num_agents = len(args) // 2`, names are `args[:num_agents]`, IPs are
`args[num_agents:]`, records are zipped positionally, and the output file
is opened with mode `'w'`, replacing any prior content. -/
def generate_casc (render : List (String × String) → String)
    (fs0 : String → Option String) (args : List String) : RenderOutcome :=
  let numAgents := args.length / 2
  let agentNames := args.take numAgents
  let agentIps := args.drop numAgents
  let agents := agentNames.zip agentIps
  { agents := agents
    fs := fun p => if p = cascOutputPath then some (render agents) else fs0 p
    printed := s!"Rendered jenkins/casc.generated.yaml for {numAgents} agents." }

/-! ### Credential Provisioner (`setup_ssh_key`) -/

/-- The only filesystem fact the provisioning claims are about: whether
the temporary key directory currently exists. -/
structure FsState where
  tmpKeyDirExists : Bool

/-- Oracle for the external `ssh-keygen` invocation and the two file
reads: the command's exit code and the key material the files hold. -/
structure SshEnv where
  keygenExitCode : Nat
  privateKeyContent : String
  publicKeyContent : String

/-- Semantics of `with tempfile.TemporaryDirectory() as tmp_key_dir:` —
the directory is created on entry and deleted on exit, both when the body
returns normally and when it raises (the raised error propagates). -/
def withTempDir {ε α : Type} (body : FsState → FsState × Except ε α)
    (s0 : FsState) : FsState × Except ε α :=
  let s1 : FsState := { s0 with tmpKeyDirExists := true }
  let br := body s1
  ({ br.1 with tmpKeyDirExists := false }, br.2)

/-- Body of `setup_ssh_key` inside the `with` block: `subprocess.run`
with `check=True` raises `CalledProcessError` (carrying the exit code) on
a non-zero exit; otherwise both key files are read. -/
def sshKeyBody (env : SshEnv) (s : FsState) :
    FsState × Except Nat (String × String) :=
  if env.keygenExitCode ≠ 0 then (s, Except.error env.keygenExitCode)
  else (s, Except.ok (env.privateKeyContent, env.publicKeyContent))

/-- Embedding of `setup_ssh_key`. -/
def setup_ssh_key (env : SshEnv) (s0 : FsState) :
    FsState × Except Nat (String × String) :=
  withTempDir (sshKeyBody env) s0

/-! ### Orchestrator (`create_jenkins_system` and `main`) -/

/-- Externally visible stages of a run, in the order `main` and
`create_jenkins_system` perform them. -/
inductive Action
  | cleanup
  | checkUv
  | readServices
  | keygen
  | composeUpAgents (service : String) (scale : Int)
  | collectAndRender (service : String)
  | composeUpController (service : String)
  | reportUrl
  deriving DecidableEq, Repr

/-- Oracle for the external calls a run makes: whether `uv` is on the
PATH, the service names declared in the compose file, and the exit codes
of `ssh-keygen`, the agent `docker compose up`, the renderer subprocess,
and the controller `docker compose up`. -/
structure SysEnv where
  uvFound : Bool
  composeServices : List String
  keygenExit : Nat
  agentsUpExit : Nat
  renderExit : Nat
  controllerUpExit : Nat

/-- Embedding of `create_jenkins_system`: returns the actions performed
and the process exit status.  `check_uv` calls `sys.exit(1)` when `uv` is
missing; `get_service_names` may call `sys.exit(1)`; each `check=True`
subprocess failure raises `CalledProcessError`, which is uncaught and
terminates the interpreter with exit status 1. -/
def create_jenkins_system (env : SysEnv) (agentCount : Int) : List Action × Nat :=
  if !env.uvFound then ([Action.checkUv], 1)
  else
    match get_service_names env.composeServices with
    | Except.error code => ([Action.checkUv, Action.readServices], code)
    | Except.ok (agentSvc, controllerSvc) =>
        if env.keygenExit ≠ 0 then
          ([Action.checkUv, Action.readServices, Action.keygen], 1)
        else if env.agentsUpExit ≠ 0 then
          ([Action.checkUv, Action.readServices, Action.keygen,
            Action.composeUpAgents agentSvc agentCount], 1)
        else if env.renderExit ≠ 0 then
          ([Action.checkUv, Action.readServices, Action.keygen,
            Action.composeUpAgents agentSvc agentCount,
            Action.collectAndRender agentSvc], 1)
        else if env.controllerUpExit ≠ 0 then
          ([Action.checkUv, Action.readServices, Action.keygen,
            Action.composeUpAgents agentSvc agentCount,
            Action.collectAndRender agentSvc,
            Action.composeUpController controllerSvc], 1)
        else
          ([Action.checkUv, Action.readServices, Action.keygen,
            Action.composeUpAgents agentSvc agentCount,
            Action.collectAndRender agentSvc,
            Action.composeUpController controllerSvc,
            Action.reportUrl], 0)

/-- Embedding of `main` after argument parsing: `numAgents` is the parsed
`--num-agents` integer, `clean` the `--clean` flag, and
`composeFileExists` whether the `--compose-file` path exists.  Note the
source runs `cleanup()` first and only then tests whether the compose
file exists. -/
def mainRun (env : SysEnv) (clean : Bool) (composeFileExists : Bool)
    (numAgents : Int) : List Action × Nat :=
  if numAgents = 0 then ([], 0)
  else if clean then
    if composeFileExists then
      let r := create_jenkins_system env numAgents
      (Action.cleanup :: r.1, r.2)
    else ([Action.cleanup], 1)
  else ([], 0)

/-- Concrete, fully cooperative environment used by witnesses and
counterexamples. -/
def envDefault : SysEnv :=
  { uvFound := true
    composeServices := ["jenkins-controller", "jenkins-agent"]
    keygenExit := 0
    agentsUpExit := 0
    renderExit := 0
    controllerUpExit := 0 }

/-- Concrete container used to instantiate the discovery theorem. -/
def sampleAgent : Container :=
  { name := "jenkins-agent-1"
    statusAt := fun _ => "running"
    networks := [some "10.0.0.2"] }

/-! ### Helper lemmas -/

theorem lastMatch_pred {p : String → Bool} :
    ∀ {l : List String} {x : String}, lastMatch p l = some x → p x = true := by
  intro l
  induction l with
  | nil => intro x h; simp [lastMatch] at h
  | cons s rest ih =>
      intro x h
      unfold lastMatch at h
      cases hr : lastMatch p rest with
      | some y => rw [hr] at h; cases h; exact ih hr
      | none =>
          rw [hr] at h
          by_cases hp : p s = true
          · rw [hp] at h; simp at h; rw [← h]; exact hp
          · simp [hp] at h

theorem scanServices_eq (l : List String) :
    ∀ a c : Option String,
      scanServices l a c =
        ((lastMatch agentMatch l).elim a some,
         (lastMatch controllerMatch l).elim c some) := by
  induction l with
  | nil => intro a c; simp [scanServices, lastMatch]
  | cons s rest ih =>
      intro a c
      show scanServices rest _ _ = _
      rw [ih]
      cases ha : lastMatch agentMatch rest <;> cases hc : lastMatch controllerMatch rest <;>
        by_cases h1 : agentMatch s = true <;> by_cases h2 : controllerMatch s = true <;>
          simp [lastMatch, ha, hc, Option.elim, h1, h2]

theorem lastMatch_none {p : String → Bool} :
    ∀ {l : List String}, (∀ s ∈ l, p s = false) → lastMatch p l = none := by
  intro l
  induction l with
  | nil => intro _; rfl
  | cons s rest ih =>
      intro h
      unfold lastMatch
      rw [ih (fun t ht => h t (List.mem_cons_of_mem s ht))]
      simp [h s (List.mem_cons_self s rest)]

theorem agentMatch_nonempty {s : String} (h : agentMatch s = true) :
    s.data.isEmpty = false := by
  cases hd : s.data with
  | cons _ _ => simp
  | nil =>
      exfalso
      unfold agentMatch pyIn at h
      rw [hd] at h
      simp [hasSub] at h

theorem controllerMatch_nonempty {s : String} (h : controllerMatch s = true) :
    s.data.isEmpty = false := by
  cases hd : s.data with
  | cons _ _ => simp
  | nil =>
      exfalso
      unfold controllerMatch pyIn at h
      rw [hd] at h
      have hs : s = "" := by
        cases s with
        | mk d => cases hd; rfl
      rw [hs] at h
      simp [hasSub] at h

theorem forEachTry_ops (items : List String) (fails : String → Bool)
    (mkOp : String → DockerOp) (mkWarn : String → String) :
    (forEachTry items fails mkOp mkWarn).1 = items.map mkOp ∧
      (forEachTry items fails mkOp mkWarn).2 =
        (items.filter fails).map mkWarn := by
  suffices h : ∀ acc : List DockerOp × List String,
      (items.foldl
        (fun acc n => (acc.1 ++ [mkOp n], acc.2 ++ tryWarn (apiCall (fails n)) (mkWarn n)))
        acc) =
      (acc.1 ++ items.map mkOp, acc.2 ++ (items.filter fails).map mkWarn) by
    have := h ([], [])
    constructor <;> simp [forEachTry, this]
  intro acc
  induction items generalizing acc with
  | nil => simp
  | cons n rest ih =>
      rw [List.foldl_cons, ih]
      by_cases hf : fails n = true <;>
        simp [hf, apiCall, tryWarn, List.filter_cons]

theorem pollCount_le (status : Nat → String) :
    ∀ (fuel i : Nat), pollCount status fuel i ≤ fuel := by
  intro fuel
  induction fuel with
  | zero => intro i; simp [pollCount]
  | succ n ih =>
      intro i
      unfold pollCount
      by_cases h : status i = "running"
      · simp [h]
      · simp only [h, if_false]
        have := ih (i + 1)
        omega

theorem pollCount_stops (status : Nat → String) :
    ∀ (j fuel i : Nat), j < fuel → status (i + j) = "running" →
      (∀ k, k < j → status (i + k) ≠ "running") →
      pollCount status fuel i = j + 1 := by
  intro j
  induction j with
  | zero =>
      intro fuel i hj hrun _
      cases fuel with
      | zero => omega
      | succ n => simp at hrun; simp [pollCount, hrun]
  | succ j ih =>
      intro fuel i hj hrun hbefore
      cases fuel with
      | zero => omega
      | succ n =>
          have h0 : status (i + 0) ≠ "running" := hbefore 0 (Nat.succ_pos j)
          simp at h0
          have hrec : pollCount status n (i + 1) = j + 1 := by
            apply ih n (i + 1) (by omega)
            · have : i + 1 + j = i + (j + 1) := by omega
              rw [this]; exact hrun
            · intro k hk
              have : i + 1 + k = i + (k + 1) := by omega
              rw [this]
              exact hbefore (k + 1) (by omega)
          simp [pollCount, h0, hrec]
          omega

theorem loopIp_eq :
    ∀ (l : List (Option String)) (a : Option String), optTruthy a = false →
      (if optTruthy (loopIp a l) then (loopIp a l).getD "" else "") =
        (firstNonemptyIp l).getD "" := by
  intro l
  induction l with
  | nil => intro a ha; simp [loopIp, firstNonemptyIp, ha]
  | cons n rest ih =>
      intro a ha
      by_cases hn : optTruthy n = true
      · cases n with
        | none => simp [optTruthy] at hn
        | some s =>
            have hs : s.data.isEmpty = false := by
              simpa [optTruthy] using hn
            simp [loopIp, hn, firstNonemptyIp, hs, optTruthy]
      · have hn' : optTruthy n = false := by simpa using hn
        have hfn : firstNonemptyIp (n :: rest) = firstNonemptyIp rest := by
          cases n with
          | none => simp [firstNonemptyIp]
          | some s =>
              have hs : s.data.isEmpty = true := by
                by_contra hc
                simp [optTruthy, Bool.not_eq_true] at hn' hc
                simp [hn'] at hc
              simp [firstNonemptyIp, hs]
        rw [hfn, ← ih n hn']
        simp [loopIp, hn']

theorem emittedIp_eq (c : Container) :
    emittedIp c = (firstNonemptyIp c.networks).getD "" :=
  loopIp_eq c.networks none rfl

theorem create_jenkins_system_launches (env : SysEnv) (a c : String) (k : Int)
    (huv : env.uvFound = true)
    (hsvc : get_service_names env.composeServices = Except.ok (a, c))
    (hkey : env.keygenExit = 0) :
    ∃ rest, (create_jenkins_system env k).1 =
      [Action.checkUv, Action.readServices, Action.keygen,
       Action.composeUpAgents a k] ++ rest := by
  unfold create_jenkins_system
  rw [huv, hsvc]
  by_cases h1 : env.agentsUpExit = 0 <;> by_cases h2 : env.renderExit = 0 <;>
    by_cases h3 : env.controllerUpExit = 0 <;>
      simp [hkey, h1, h2, h3]

/-! ### Claims -/

/-- C1 counterexample: the Service Topology Reader does not select the
first matching service name.  In the document with services
`["agenta", "agentb", "jenkins"]`, the first name containing `"agent"` is
`"agenta"`, yet the reader returns `"agentb"` — the loop overwrites the
candidate on every match and never breaks, so the last match wins. -/
theorem C1_counterexample :
    get_service_names ["agenta", "agentb", "jenkins"] =
        Except.ok ("agentb", "jenkins") ∧
      agentMatch "agenta" = true ∧ agentMatch "agentb" = true :=
  ⟨rfl, rfl, rfl⟩

/-- C1 (amended): iterating the declared service names in declared order,
the Service Topology Reader selects as the agent service the LAST service
name containing the substring `"agent"`, and as the controller service the
LAST service name that is exactly `"jenkins"` or contains `"controller"`;
in particular, for documents with exactly one name matching each
criterion, it returns those two names. -/
theorem C1_service_names_last (services : List String) (a c : String)
    (ha : lastMatch agentMatch services = some a)
    (hc : lastMatch controllerMatch services = some c) :
    get_service_names services = Except.ok (a, c) := by
  unfold get_service_names
  rw [scanServices_eq, ha, hc]
  have hA : pyTruthy (some a) = true := by
    simp [pyTruthy, agentMatch_nonempty (lastMatch_pred ha)]
  have hC : pyTruthy (some c) = true := by
    simp [pyTruthy, controllerMatch_nonempty (lastMatch_pred hc)]
  simp [Option.elim, hA, hC]

/-- C1 witness: the spec's own example document
`{jenkins-controller: ..., jenkins-agent: ...}` resolves to
agent `"jenkins-agent"` and controller `"jenkins-controller"`. -/
theorem C1_witness :
    get_service_names ["jenkins-controller", "jenkins-agent"] =
      Except.ok ("jenkins-agent", "jenkins-controller") :=
  C1_service_names_last ["jenkins-controller", "jenkins-agent"]
    "jenkins-agent" "jenkins-controller" (by decide) (by decide)

/-- C7: for every compose document in which no service name matches the
agent criterion, or no service name matches the controller criterion, the
Service Topology Reader terminates the process with exit status 1
(modelled as `Except.error 1`). -/
theorem C7_missing_service_exits (services : List String)
    (h : (∀ s ∈ services, agentMatch s = false) ∨
         (∀ s ∈ services, controllerMatch s = false)) :
    get_service_names services = Except.error 1 := by
  unfold get_service_names
  rw [scanServices_eq]
  cases h with
  | inl hA =>
      rw [lastMatch_none hA]
      simp [Option.elim, pyTruthy]
  | inr hC =>
      rw [lastMatch_none hC]
      cases lastMatch agentMatch services <;> simp [Option.elim, pyTruthy]

/-- C7 witness: a document whose only service is `"jenkins"` has no
agent-matching name, so the reader exits with status 1. -/
theorem C7_witness :
    get_service_names ["jenkins"] = Except.error 1 :=
  C7_missing_service_exits ["jenkins"] (Or.inl (by decide))

/-- C3: for every Docker state and every pattern of per-call
`APIError` failures, `cleanup` issues the removal call for every
enumerated resource of every category (stops, container removals, image
removals, volume removals, the build-cache prune, and removals of the
non-reserved networks) — no failure aborts the remaining items or the
subsequent categories — and each failing call contributes exactly its
warning message to the log; the operation returns a pure value, so it
never raises. -/
theorem C3_cleanup_best_effort (w : DockerWorld) :
    (cleanup w).1 =
        w.runningContainers.map DockerOp.stopContainer ++
        w.allContainers.map DockerOp.removeContainer ++
        w.images.map DockerOp.removeImage ++
        w.volumes.map DockerOp.removeVolume ++
        [DockerOp.pruneBuilds] ++
        (w.networks.filter (fun n => !reservedNetworks.contains n)).map
          DockerOp.removeNetwork ∧
      (cleanup w).2 =
        (w.runningContainers.filter w.stopFails).map
          (fun n => "Failed to stop container " ++ n) ++
        (w.allContainers.filter w.removeContainerFails).map
          (fun n => "Failed to remove container " ++ n) ++
        (w.images.filter w.removeImageFails).map
          (fun i => "Failed to remove image " ++ i) ++
        (w.volumes.filter w.removeVolumeFails).map
          (fun v => "Failed to remove volume " ++ v) ++
        (if w.pruneBuildsFails then ["Failed to prune build cache"] else []) ++
        ((w.networks.filter (fun n => !reservedNetworks.contains n)).filter
            w.removeNetworkFails).map
          (fun n => "Failed to remove network " ++ n) := by
  have hs := forEachTry_ops w.runningContainers w.stopFails
    DockerOp.stopContainer (fun n => "Failed to stop container " ++ n)
  have hr := forEachTry_ops w.allContainers w.removeContainerFails
    DockerOp.removeContainer (fun n => "Failed to remove container " ++ n)
  have hi := forEachTry_ops w.images w.removeImageFails
    DockerOp.removeImage (fun i => "Failed to remove image " ++ i)
  have hv := forEachTry_ops w.volumes w.removeVolumeFails
    DockerOp.removeVolume (fun v => "Failed to remove volume " ++ v)
  have hn := forEachTry_ops (w.networks.filter (fun n => !reservedNetworks.contains n))
    w.removeNetworkFails DockerOp.removeNetwork (fun n => "Failed to remove network " ++ n)
  constructor
  · show _ ++ _ ++ _ ++ _ ++ _ ++ _ = _
    rw [hs.1, hr.1, hi.1, hv.1, hn.1]
  · show _ ++ _ ++ _ ++ _ ++ _ ++ _ = _
    rw [hs.2, hr.2, hi.2, hv.2, hn.2]
    by_cases hp : w.pruneBuildsFails = true <;> simp [hp, apiCall, tryWarn]

/-- C4: every container whose name contains the agent service name is
polled at most 20 times, polling stops right after the first `"running"`
status, and exactly one (name, ip) record is emitted per matching
container — the `i`-th name is the `i`-th matching container's name and
the `i`-th IP is the first non-empty address among its networks (the
empty string when there is none, in particular when `"running"` was never
observed); hence the two returned lists have equal length. -/
theorem C4_agent_discovery (svc : String) (cs : List Container) (c : Container)
    (hmem : c ∈ cs) (hname : pyIn svc c.name = true) :
    (collectAgents svc cs).1.length = (collectAgents svc cs).2.length ∧
    (∀ i : Nat, (collectAgents svc cs).1[i]? =
      ((cs.filter (fun d => pyIn svc d.name))[i]?).map Container.name) ∧
    (∀ i : Nat, (collectAgents svc cs).2[i]? =
      ((cs.filter (fun d => pyIn svc d.name))[i]?).map
        (fun d => (firstNonemptyIp d.networks).getD "")) ∧
    c ∈ cs.filter (fun d => pyIn svc d.name) ∧
    pollsFor c ≤ 20 ∧
    (∀ j, j < 20 → c.statusAt j = "running" →
      (∀ k, k < j → c.statusAt k ≠ "running") → pollsFor c = j + 1) := by
  refine ⟨?_, ?_, ?_, ?_, ?_, ?_⟩
  · simp [collectAgents]
  · intro i
    simp [collectAgents]
  · intro i
    cases h : (cs.filter (fun d => pyIn svc d.name))[i]? with
    | none => simp [collectAgents, h]
    | some d => simp [collectAgents, h, emittedIp_eq]
  · exact List.mem_filter.mpr ⟨hmem, hname⟩
  · exact pollCount_le c.statusAt 20 0
  · intro j hj hrun hbefore
    apply pollCount_stops c.statusAt j 20 0 hj
    · simpa using hrun
    · intro k hk
      simpa using hbefore k hk

/-- C4 witness: a single running agent container yields name and IP lists
of equal length and is polled at most 20 times. -/
theorem C4_witness :
    (collectAgents "agent" [sampleAgent]).1.length =
        (collectAgents "agent" [sampleAgent]).2.length ∧
      pollsFor sampleAgent ≤ 20 :=
  ⟨(C4_agent_discovery "agent" [sampleAgent] sampleAgent (by simp) (by decide)).1,
   (C4_agent_discovery "agent" [sampleAgent] sampleAgent (by simp)
      (by decide)).2.2.2.2.1⟩

/-- C5: for every renderer invocation with a positional argument list of
length `2 * n`, the renderer builds exactly `n` agent records pairing the
`i`-th of the first `n` arguments with the `i`-th of the last `n`
arguments, in order; it writes the rendered template of that record
sequence to the fixed output path regardless of the file's prior content,
leaves every other path untouched, and prints a one-line summary
reporting `n` agents. -/
theorem C5_renderer_pairing (render : List (String × String) → String)
    (fs0 : String → Option String) (args : List String) (n : Nat)
    (hlen : args.length = 2 * n) :
    (generate_casc render fs0 args).agents = (args.take n).zip (args.drop n) ∧
    (generate_casc render fs0 args).agents.length = n ∧
    (∀ i, i < n → (generate_casc render fs0 args).agents[i]? =
      some (args.getD i "", args.getD (n + i) "")) ∧
    (generate_casc render fs0 args).fs cascOutputPath =
      some (render ((args.take n).zip (args.drop n))) ∧
    (∀ p, p ≠ cascOutputPath → (generate_casc render fs0 args).fs p = fs0 p) ∧
    (generate_casc render fs0 args).printed =
      s!"Rendered jenkins/casc.generated.yaml for {n} agents." := by
  have hdiv : args.length / 2 = n := by omega
  have hagents : (generate_casc render fs0 args).agents =
      (args.take n).zip (args.drop n) := by
    simp [generate_casc, hdiv]
  refine ⟨hagents, ?_, ?_, ?_, ?_, ?_⟩
  · rw [hagents]
    simp [List.length_zip, hlen]
    omega
  · intro i hi
    rw [hagents]
    have h1 : i < args.length := by omega
    have h2 : n + i < args.length := by omega
    refine List.getElem?_zip_eq_some.mpr ⟨?_, ?_⟩
    · rw [List.getElem?_take_of_lt hi, List.getElem?_eq_getElem h1,
        List.getD_eq_getElem args "" h1]
    · rw [List.getElem?_drop, List.getElem?_eq_getElem h2,
        List.getD_eq_getElem args "" h2]
  · simp [generate_casc, hdiv]
  · intro p hp
    simp [generate_casc, hp]
  · simp [generate_casc, hdiv]

/-- C5 witness: with arguments `["a1", "a2", "10.0.0.2", "10.0.0.3"]` the
renderer pairs `("a1", "10.0.0.2")` and `("a2", "10.0.0.3")` and reports
2 agents. -/
theorem C5_witness :
    (generate_casc (fun _ => "doc") (fun _ => none)
        ["a1", "a2", "10.0.0.2", "10.0.0.3"]).agents =
        [("a1", "10.0.0.2"), ("a2", "10.0.0.3")] ∧
      (generate_casc (fun _ => "doc") (fun _ => none)
        ["a1", "a2", "10.0.0.2", "10.0.0.3"]).printed =
        "Rendered jenkins/casc.generated.yaml for 2 agents." := by
  have h := C5_renderer_pairing (fun _ => "doc") (fun _ => none)
    ["a1", "a2", "10.0.0.2", "10.0.0.3"] 2 (by decide)
  exact ⟨by rw [h.1]; rfl, by rw [h.2.2.2.2.2]; rfl⟩

/-- C6: for every keygen outcome and every starting filesystem state, the
temporary key directory does not exist after `setup_ssh_key` completes;
a zero keygen exit yields the (private key, public key) pair read from
the generated files, and a non-zero keygen exit propagates as an error
(carrying the exit code) raised only after the directory is deleted. -/
theorem C6_tmpdir_deleted (env : SshEnv) (s0 : FsState) :
    (setup_ssh_key env s0).1.tmpKeyDirExists = false ∧
    (env.keygenExitCode = 0 →
      (setup_ssh_key env s0).2 =
        Except.ok (env.privateKeyContent, env.publicKeyContent)) ∧
    (env.keygenExitCode ≠ 0 →
      (setup_ssh_key env s0).2 = Except.error env.keygenExitCode) := by
  refine ⟨rfl, ?_, ?_⟩ <;>
    · intro h
      simp [setup_ssh_key, withTempDir, sshKeyBody, h]

/-- C6 witness: a keygen failure with exit code 1 leaves no temporary
directory behind and surfaces as the error 1. -/
theorem C6_witness :
    (setup_ssh_key ⟨1, "priv", "pub"⟩ ⟨true⟩).1.tmpKeyDirExists = false ∧
      (setup_ssh_key ⟨1, "priv", "pub"⟩ ⟨true⟩).2 = Except.error 1 :=
  ⟨(C6_tmpdir_deleted ⟨1, "priv", "pub"⟩ ⟨true⟩).1,
   (C6_tmpdir_deleted ⟨1, "priv", "pub"⟩ ⟨true⟩).2.2 (by decide)⟩

/-- C2 counterexample: with the clean flag set, a nonzero agent count and
a missing compose file, the run does exit with status 1 — but the CLEANUP
stage runs first (`cleanup()` is called before the compose-file existence
test), so the transition is not `START → EXIT(1)` with no container
operations; and with agent count 0 the same flags exit 0 instead. -/
theorem C2_counterexample :
    (mainRun envDefault true false 1).2 = 1 ∧
      Action.cleanup ∈ (mainRun envDefault true false 1).1 ∧
      mainRun envDefault true false 0 = ([], 0) := by
  decide

/-- C2 (amended): for every run with the clean flag set, a nonzero agent
count and a compose file path that does not exist, the Orchestrator first
executes the CLEANUP stage and then terminates with exit status 1; no
credential, compose, or renderer operation is performed. -/
theorem C2_missing_compose_exits_after_cleanup (env : SysEnv) (n : Int)
    (hn : n ≠ 0) :
    mainRun env true false n = ([Action.cleanup], 1) := by
  simp [mainRun, hn]

/-- C2 witness: the amended behaviour at agent count 1. -/
theorem C2_witness : mainRun envDefault true false 1 = ([Action.cleanup], 1) :=
  C2_missing_compose_exits_after_cleanup envDefault 1 (by decide)

/-- C8: a run invoked with an agent count of exactly 0 performs no
actions at all — no cleanup, no credential generation, no compose
invocation — and exits with status 0, for every environment, compose-file
state, and setting of the clean flag. -/
theorem C8_zero_agents_noop (env : SysEnv) (clean composeFileExists : Bool) :
    mainRun env clean composeFileExists 0 = ([], 0) := by
  simp [mainRun]

/-- C9: in a run that reaches system setup (clean flag set, nonzero agent
count, compose file present) with `uv` absent from the PATH, the process
performs only the cleanup and the `uv` check and exits with status 1:
service names are never resolved, no credentials are generated, and the
compose tool is never invoked. -/
theorem C9_uv_gate (env : SysEnv) (n : Int)
    (huv : env.uvFound = false) (hn : n ≠ 0) :
    mainRun env true true n = ([Action.cleanup, Action.checkUv], 1) := by
  simp [mainRun, create_jenkins_system, hn, huv]

/-- C9 witness: the `uv` gate at agent count 1 with `uv` missing. -/
theorem C9_witness :
    mainRun { envDefault with uvFound := false } true true 1 =
      ([Action.cleanup, Action.checkUv], 1) :=
  C9_uv_gate { envDefault with uvFound := false } 1 rfl (by decide)

/-- C10: the zero-agent short-circuit tests exact equality with 0: a run
with agent count `-1`, the clean flag set, the compose file present, `uv`
available, resolvable service names and a successful key generation does
not exit early — it performs the cleanup, provisions credentials, and
invokes the agent-launch compose command with `-1` as the scale value. -/
theorem C10_negative_agents (env : SysEnv) (a c : String)
    (huv : env.uvFound = true)
    (hsvc : get_service_names env.composeServices = Except.ok (a, c))
    (hkey : env.keygenExit = 0) :
    (∃ rest, (mainRun env true true (-1)).1 =
      [Action.cleanup, Action.checkUv, Action.readServices, Action.keygen,
       Action.composeUpAgents a (-1)] ++ rest) ∧
    Action.composeUpAgents a (-1) ∈ (mainRun env true true (-1)).1 := by
  have hmain : mainRun env true true (-1) =
      (Action.cleanup :: (create_jenkins_system env (-1)).1,
       (create_jenkins_system env (-1)).2) := by
    simp [mainRun]
  obtain ⟨rest, hrest⟩ := create_jenkins_system_launches env a c (-1) huv hsvc hkey
  rw [hmain]
  constructor
  · exact ⟨rest, by rw [hrest]; rfl⟩
  · rw [hrest]
    simp

/-- C10 witness: in the cooperative environment the agent-launch compose
invocation is issued with scale `-1`. -/
theorem C10_witness :
    Action.composeUpAgents "jenkins-agent" (-1) ∈
      (mainRun envDefault true true (-1)).1 :=
  (C10_negative_agents envDefault "jenkins-agent" "jenkins-controller"
    rfl rfl rfl).2

end Jenkins4Fun
